import Mathlib

/-!
Shallow embedding of the bouncing-ball-in-a-spinning-hexagon simulation
(src/main.go) over the real numbers, together with theorems checking the
specification's claims about it.  Go float64 arithmetic is modelled by ℝ;
the rendering layer (images, window, draw loop) is out of scope and not
embedded.  Names follow the Go source where Lean allows it.
-/

namespace HexBall

noncomputable section

open scoped Classical

/-- Go: screenWidth constant (main.go line 17). -/
def screenWidth : ℝ := 800

/-- Go: screenHeight constant (main.go line 18). -/
def screenHeight : ℝ := 600

/-- Go: type Vector struct { X, Y float64 } (main.go lines 22-24). -/
@[ext]
structure Vector where
  X : ℝ
  Y : ℝ

/-- Go: func (v Vector) Add(u Vector) Vector (main.go lines 27-29). -/
def Vector.Add (v u : Vector) : Vector := ⟨v.X + u.X, v.Y + u.Y⟩

/-- Go: func (v Vector) Sub(u Vector) Vector (main.go lines 31-33). -/
def Vector.Sub (v u : Vector) : Vector := ⟨v.X - u.X, v.Y - u.Y⟩

/-- Go: func (v Vector) Mul(s float64) Vector (main.go lines 35-37). -/
def Vector.Mul (v : Vector) (s : ℝ) : Vector := ⟨v.X * s, v.Y * s⟩

/-- Go: func (v Vector) Dot(u Vector) float64 (main.go lines 39-41). -/
def Vector.Dot (v u : Vector) : ℝ := v.X * u.X + v.Y * u.Y

/-- Go: func (v Vector) Len() float64, math.Hypot (main.go lines 43-45). -/
def Vector.Len (v : Vector) : ℝ := Real.sqrt (v.X ^ 2 + v.Y ^ 2)

/-- Go: func (v Vector) Normalize() Vector (main.go lines 47-53);
zero-length input is guarded and yields the zero vector. -/
def Vector.Normalize (v : Vector) : Vector :=
  if v.Len = 0 then ⟨0, 0⟩ else ⟨v.X / v.Len, v.Y / v.Len⟩

/-- Go: func (v Vector) Perp() Vector, 90° counterclockwise (main.go lines 56-58). -/
def Vector.Perp (v : Vector) : Vector := ⟨-v.Y, v.X⟩

/-- Go: type Game struct (main.go lines 64-77); the prerendered circle
image field is rendering state and is not part of the simulation core. -/
@[ext]
structure Game where
  ballPos : Vector
  ballVel : Vector
  ballRadius : ℝ
  hexRotation : ℝ
  hexAngularSpeed : ℝ
  hexRadius : ℝ

/-- Go: func NewGame() *Game (main.go lines 80-96), simulation fields only. -/
def NewGame : Game where
  ballPos := ⟨screenWidth / 2, screenHeight / 2 - 150⟩
  ballVel := ⟨100, 0⟩
  ballRadius := 10
  hexRotation := 0
  hexAngularSpeed := 0.5
  hexRadius := 200

/-- The hexagon center Vector{screenWidth/2, screenHeight/2}, constructed
inline both in Update (main.go line 175) and in getHexagonVertices
(main.go line 232). -/
def hexCenter : Vector := ⟨screenWidth / 2, screenHeight / 2⟩

/-- Vertex i of the rotating hexagon, the loop body of getHexagonVertices
(main.go lines 234-240): angle = hexRotation + i*2*pi/6. -/
def vertexAt (g : Game) (i : ℕ) : Vector :=
  ⟨hexCenter.X + g.hexRadius * Real.cos (g.hexRotation + (i : ℝ) * 2 * Real.pi / 6),
   hexCenter.Y + g.hexRadius * Real.sin (g.hexRotation + (i : ℝ) * 2 * Real.pi / 6)⟩

/-- Go: func (g *Game) getHexagonVertices() []Vector (main.go lines 231-242). -/
def getHexagonVertices (g : Game) : List Vector :=
  (List.range 6).map (vertexAt g)

/-- Go: func closestPointOnSegment(A, B, P Vector) Vector (main.go lines 246-257). -/
def closestPointOnSegment (A B P : Vector) : Vector :=
  let AB := B.Sub A
  let t := (P.Sub A).Dot AB / AB.Dot AB
  let t1 := if t < 0 then 0 else t
  let t2 := if t1 > 1 then 1 else t1
  A.Add (AB.Mul t2)

/-- Go: restitution coefficient set before the collision loop (main.go line 148). -/
def restitution : ℝ := 0.9

/-- The collision normal of main.go lines 160-168: normalize(ballPos - closest)
when the distance is nonzero, else the normalized perpendicular of the edge. -/
def collisionNormal (P A B : Vector) : Vector :=
  let diff := P.Sub (closestPointOnSegment A B P)
  if diff.Len ≠ 0 then diff.Normalize else ((B.Sub A).Perp).Normalize

/-- The rotating wall's instantaneous velocity at a contact point
(main.go lines 175-179): perp(closest - hexCenter) * hexAngularSpeed. -/
def wallVelocity (omega : ℝ) (closest : Vector) : Vector :=
  ((closest.Sub hexCenter).Perp).Mul omega

/-- One iteration of the edge-collision loop of Update (main.go lines 149-192)
for the edge from A to B. -/
def resolveEdge (g : Game) (A B : Vector) : Game :=
  let closest := closestPointOnSegment A B g.ballPos
  let dist := (g.ballPos.Sub closest).Len
  if dist < g.ballRadius then
    let normal := collisionNormal g.ballPos A B
    let pos1 := g.ballPos.Add (normal.Mul (g.ballRadius - dist))
    let wallVel := wallVelocity g.hexAngularSpeed closest
    let relVel := g.ballVel.Sub wallVel
    let dot := relVel.Dot normal
    if dot < 0 then
      { g with ballPos := pos1,
               ballVel := (relVel.Sub (normal.Mul ((1 + restitution) * dot))).Add wallVel }
    else
      { g with ballPos := pos1 }
  else g

/-- The whole six-edge collision loop of Update (main.go lines 144-192);
the vertices are computed once, from the post-integration state. -/
def collisionPass (g : Game) : Game :=
  List.foldl (fun s i => resolveEdge s (vertexAt g i) (vertexAt g ((i + 1) % 6))) g
    (List.range 6)

/-- Go: func (g *Game) Update() error (main.go lines 125-194).  The Go method
takes no timestep argument: dt := 1.0/60.0 is fixed inside the body. -/
def Update (g : Game) : Game :=
  let dt : ℝ := 1.0 / 60.0
  let gravity : ℝ := 500.0
  let v1 : Vector := ⟨g.ballVel.X, g.ballVel.Y + gravity * dt⟩
  let airFriction : ℝ := 0.99
  let v2 := v1.Mul airFriction
  let p1 := g.ballPos.Add (v2.Mul dt)
  let rot1 := g.hexRotation + g.hexAngularSpeed * dt
  collisionPass { g with ballVel := v2, ballPos := p1, hexRotation := rot1 }

/-- Modelled from the spec (section 4.2): the per-step advance as the spec
describes it, a function of a caller-supplied timestep dt.  The repository's
Update has no such parameter; this definition follows the spec's words so the
two can be compared. -/
def StepSpec (dt : ℝ) (g : Game) : Game :=
  let gravity : ℝ := 500.0
  let v1 : Vector := ⟨g.ballVel.X, g.ballVel.Y + gravity * dt⟩
  let airFriction : ℝ := 0.99
  let v2 := v1.Mul airFriction
  let p1 := g.ballPos.Add (v2.Mul dt)
  let rot1 := g.hexRotation + g.hexAngularSpeed * dt
  collisionPass { g with ballVel := v2, ballPos := p1, hexRotation := rot1 }

/-- A hexagon vertex expressed by its angle; vertexAt g i is definitionally
vertexAtAngle g (hexRotation + i*2*pi/6). -/
def vertexAtAngle (g : Game) (θ : ℝ) : Vector :=
  ⟨hexCenter.X + g.hexRadius * Real.cos θ, hexCenter.Y + g.hexRadius * Real.sin θ⟩

/-- A concrete state used to exercise resolveEdge: ball of radius 2 at (2,1),
non-rotating hexagon, ball moving straight away from the segment below it. -/
def gC4 : Game where
  ballPos := ⟨2, 1⟩
  ballVel := ⟨0, 5⟩
  ballRadius := 2
  hexRotation := 0
  hexAngularSpeed := 0
  hexRadius := 200

/-- Same geometry as gC4 but with the ball moving into the wall. -/
def gC5 : Game where
  ballPos := ⟨2, 1⟩
  ballVel := ⟨0, -1⟩
  ballRadius := 2
  hexRotation := 0
  hexAngularSpeed := 0
  hexRadius := 200

/-! ## Preservation lemmas: the collision loop touches only ballPos and ballVel -/

theorem resolveEdge_hexRotation (g : Game) (A B : Vector) :
    (resolveEdge g A B).hexRotation = g.hexRotation := by
  simp only [resolveEdge]; split_ifs <;> rfl

theorem resolveEdge_hexAngularSpeed (g : Game) (A B : Vector) :
    (resolveEdge g A B).hexAngularSpeed = g.hexAngularSpeed := by
  simp only [resolveEdge]; split_ifs <;> rfl

theorem resolveEdge_hexRadius (g : Game) (A B : Vector) :
    (resolveEdge g A B).hexRadius = g.hexRadius := by
  simp only [resolveEdge]; split_ifs <;> rfl

theorem resolveEdge_ballRadius (g : Game) (A B : Vector) :
    (resolveEdge g A B).ballRadius = g.ballRadius := by
  simp only [resolveEdge]; split_ifs <;> rfl

theorem foldl_resolveEdge_hexRotation (g0 : Game) (l : List ℕ) (s : Game) :
    (List.foldl (fun s i => resolveEdge s (vertexAt g0 i) (vertexAt g0 ((i + 1) % 6))) s
      l).hexRotation = s.hexRotation := by
  induction l generalizing s with
  | nil => rfl
  | cons a l ih => simp only [List.foldl_cons, ih, resolveEdge_hexRotation]

theorem foldl_resolveEdge_hexAngularSpeed (g0 : Game) (l : List ℕ) (s : Game) :
    (List.foldl (fun s i => resolveEdge s (vertexAt g0 i) (vertexAt g0 ((i + 1) % 6))) s
      l).hexAngularSpeed = s.hexAngularSpeed := by
  induction l generalizing s with
  | nil => rfl
  | cons a l ih => simp only [List.foldl_cons, ih, resolveEdge_hexAngularSpeed]

theorem foldl_resolveEdge_hexRadius (g0 : Game) (l : List ℕ) (s : Game) :
    (List.foldl (fun s i => resolveEdge s (vertexAt g0 i) (vertexAt g0 ((i + 1) % 6))) s
      l).hexRadius = s.hexRadius := by
  induction l generalizing s with
  | nil => rfl
  | cons a l ih => simp only [List.foldl_cons, ih, resolveEdge_hexRadius]

theorem foldl_resolveEdge_ballRadius (g0 : Game) (l : List ℕ) (s : Game) :
    (List.foldl (fun s i => resolveEdge s (vertexAt g0 i) (vertexAt g0 ((i + 1) % 6))) s
      l).ballRadius = s.ballRadius := by
  induction l generalizing s with
  | nil => rfl
  | cons a l ih => simp only [List.foldl_cons, ih, resolveEdge_ballRadius]

theorem collisionPass_hexRotation (g : Game) :
    (collisionPass g).hexRotation = g.hexRotation :=
  foldl_resolveEdge_hexRotation g _ g

theorem collisionPass_hexAngularSpeed (g : Game) :
    (collisionPass g).hexAngularSpeed = g.hexAngularSpeed :=
  foldl_resolveEdge_hexAngularSpeed g _ g

theorem collisionPass_hexRadius (g : Game) :
    (collisionPass g).hexRadius = g.hexRadius :=
  foldl_resolveEdge_hexRadius g _ g

theorem collisionPass_ballRadius (g : Game) :
    (collisionPass g).ballRadius = g.ballRadius :=
  foldl_resolveEdge_ballRadius g _ g

theorem Update_hexRotation (g : Game) :
    (Update g).hexRotation = g.hexRotation + g.hexAngularSpeed * (1 / 60) := by
  show (collisionPass _).hexRotation = _
  rw [collisionPass_hexRotation]
  norm_num

theorem Update_hexAngularSpeed (g : Game) :
    (Update g).hexAngularSpeed = g.hexAngularSpeed := by
  show (collisionPass _).hexAngularSpeed = _
  rw [collisionPass_hexAngularSpeed]

theorem Update_hexRadius (g : Game) :
    (Update g).hexRadius = g.hexRadius := by
  show (collisionPass _).hexRadius = _
  rw [collisionPass_hexRadius]

theorem Update_ballRadius (g : Game) :
    (Update g).ballRadius = g.ballRadius := by
  show (collisionPass _).ballRadius = _
  rw [collisionPass_ballRadius]

theorem iterate_Update_hexAngularSpeed (n : ℕ) :
    (Update^[n] NewGame).hexAngularSpeed = 0.5 := by
  induction n with
  | zero => rfl
  | succ n ih => rw [Function.iterate_succ_apply', Update_hexAngularSpeed, ih]

theorem iterate_Update_hexRadius (n : ℕ) :
    (Update^[n] NewGame).hexRadius = 200 := by
  induction n with
  | zero => rfl
  | succ n ih => rw [Function.iterate_succ_apply', Update_hexRadius, ih]

theorem StepSpec_hexRotation (dt : ℝ) (g : Game) :
    (StepSpec dt g).hexRotation = g.hexRotation + g.hexAngularSpeed * dt := by
  show (collisionPass _).hexRotation = _
  rw [collisionPass_hexRotation]

/-! ## Concrete evaluation lemmas for witnesses -/

theorem closest_eval : closestPointOnSegment ⟨0, 0⟩ ⟨4, 0⟩ ⟨2, 1⟩ = ⟨2, 0⟩ := by
  simp only [closestPointOnSegment, Vector.Sub, Vector.Dot, Vector.Add, Vector.Mul]
  rw [if_neg (by norm_num), if_neg (by norm_num)]
  norm_num

theorem diff_eval : (Vector.mk 2 1).Sub ⟨2, 0⟩ = ⟨0, 1⟩ := by
  simp only [Vector.Sub]
  norm_num

theorem len01_eval : (Vector.mk 0 1).Len = 1 := by
  simp only [Vector.Len]
  norm_num

theorem normal_eval : collisionNormal ⟨2, 1⟩ ⟨0, 0⟩ ⟨4, 0⟩ = ⟨0, 1⟩ := by
  rw [collisionNormal]
  simp only [closest_eval, diff_eval, len01_eval]
  rw [if_pos (by norm_num)]
  simp only [Vector.Normalize, len01_eval]
  rw [if_neg (by norm_num)]
  norm_num

theorem wallVelocity_zero (c : Vector) : wallVelocity 0 c = ⟨0, 0⟩ := by
  simp [wallVelocity, Vector.Mul]

/-! ## Claim theorems -/

/-- Claim C2, counterexample: the per-step advance does not use a
caller-supplied timestep.  Update is not the spec's Step at dt = 1: already the
hexagon rotation after one step from NewGame differs (0.5/60 versus 0.5). -/
theorem step_ignores_dt_counterexample : Update NewGame ≠ StepSpec 1 NewGame := by
  intro h
  have h2 := congrArg Game.hexRotation h
  rw [Update_hexRotation, StepSpec_hexRotation] at h2
  have hrot : NewGame.hexRotation = 0 := rfl
  have hom : NewGame.hexAngularSpeed = 0.5 := rfl
  rw [hrot, hom] at h2
  norm_num at h2

/-- Claim C2, amended: Update takes no timestep argument; it advances the
state exactly as the spec's dt-parametric step does at the engine-internal
fixed value dt = 1/60. -/
theorem Update_eq_StepSpec (g : Game) : Update g = StepSpec (1 / 60) g := by
  have h : (1.0 : ℝ) / 60.0 = 1 / 60 := by norm_num
  simp only [Update, StepSpec, h]

/-- Claim C3: each Update first adds gravity 500*dt to velocity.y, then
multiplies the whole velocity once by 0.99, then moves the position by the
updated velocity times dt, then advances the rotation by angularSpeed*dt, all
with dt = 1/60 and all before any collision handling. -/
theorem Update_integration_order (g : Game) :
    Update g = collisionPass
      { g with
        ballVel := ⟨g.ballVel.X * 0.99, (g.ballVel.Y + 500 * (1 / 60)) * 0.99⟩,
        ballPos := ⟨g.ballPos.X + g.ballVel.X * 0.99 * (1 / 60),
                    g.ballPos.Y + (g.ballVel.Y + 500 * (1 / 60)) * 0.99 * (1 / 60)⟩,
        hexRotation := g.hexRotation + g.hexAngularSpeed * (1 / 60) } := by
  simp only [Update, Vector.Mul, Vector.Add]
  norm_num

/-- Claim C4: at a penetrating contact whose relative velocity along the
collision normal is nonnegative (separating or tangential), resolveEdge leaves
the ball velocity unchanged and still applies the positional correction
ballPos + normal * penetration. -/
theorem resolveEdge_separating (g : Game) (A B : Vector)
    (hpen : (g.ballPos.Sub (closestPointOnSegment A B g.ballPos)).Len < g.ballRadius)
    (hsep : 0 ≤ (g.ballVel.Sub (wallVelocity g.hexAngularSpeed
        (closestPointOnSegment A B g.ballPos))).Dot (collisionNormal g.ballPos A B)) :
    (resolveEdge g A B).ballVel = g.ballVel ∧
    (resolveEdge g A B).ballPos = g.ballPos.Add ((collisionNormal g.ballPos A B).Mul
      (g.ballRadius - (g.ballPos.Sub (closestPointOnSegment A B g.ballPos)).Len)) := by
  simp only [resolveEdge]
  rw [if_pos hpen, if_neg (not_lt.mpr hsep)]
  exact ⟨rfl, rfl⟩

/-- Witness for C4: concrete separating contact (gC4 against the segment from
(0,0) to (4,0); dist 1 < radius 2, ball moving straight away). -/
theorem resolveEdge_separating_witness :
    (resolveEdge gC4 ⟨0, 0⟩ ⟨4, 0⟩).ballVel = gC4.ballVel ∧
    (resolveEdge gC4 ⟨0, 0⟩ ⟨4, 0⟩).ballPos = gC4.ballPos.Add
      ((collisionNormal gC4.ballPos ⟨0, 0⟩ ⟨4, 0⟩).Mul
        (gC4.ballRadius -
          (gC4.ballPos.Sub (closestPointOnSegment ⟨0, 0⟩ ⟨4, 0⟩ gC4.ballPos)).Len)) := by
  apply resolveEdge_separating
  · show ((Vector.mk 2 1).Sub (closestPointOnSegment ⟨0, 0⟩ ⟨4, 0⟩ ⟨2, 1⟩)).Len < 2
    rw [closest_eval, diff_eval, len01_eval]
    norm_num
  · show 0 ≤ ((Vector.mk 0 5).Sub (wallVelocity 0
      (closestPointOnSegment ⟨0, 0⟩ ⟨4, 0⟩ ⟨2, 1⟩))).Dot (collisionNormal ⟨2, 1⟩ ⟨0, 0⟩ ⟨4, 0⟩)
    rw [closest_eval, wallVelocity_zero, normal_eval]
    simp only [Vector.Sub, Vector.Dot]
    norm_num

/-- Claim C5: at a penetrating contact with approaching relative velocity,
resolveEdge sets the new ball velocity to
relVel - normal*((1+0.9)*(relVel . normal)) + wallVelocity. -/
theorem resolveEdge_bounce (g : Game) (A B : Vector)
    (hpen : (g.ballPos.Sub (closestPointOnSegment A B g.ballPos)).Len < g.ballRadius)
    (happ : (g.ballVel.Sub (wallVelocity g.hexAngularSpeed
        (closestPointOnSegment A B g.ballPos))).Dot (collisionNormal g.ballPos A B) < 0) :
    (resolveEdge g A B).ballVel =
      ((g.ballVel.Sub (wallVelocity g.hexAngularSpeed
          (closestPointOnSegment A B g.ballPos))).Sub
        ((collisionNormal g.ballPos A B).Mul ((1 + 0.9) *
          ((g.ballVel.Sub (wallVelocity g.hexAngularSpeed
            (closestPointOnSegment A B g.ballPos))).Dot
              (collisionNormal g.ballPos A B))))).Add
        (wallVelocity g.hexAngularSpeed (closestPointOnSegment A B g.ballPos)) := by
  simp only [resolveEdge]
  rw [if_pos hpen, if_pos happ]
  rfl

/-- Witness for C5: concrete approaching contact (gC5 against the segment from
(0,0) to (4,0); dist 1 < radius 2, ball moving into the wall). -/
theorem resolveEdge_bounce_witness :
    (resolveEdge gC5 ⟨0, 0⟩ ⟨4, 0⟩).ballVel =
      ((gC5.ballVel.Sub (wallVelocity gC5.hexAngularSpeed
          (closestPointOnSegment ⟨0, 0⟩ ⟨4, 0⟩ gC5.ballPos))).Sub
        ((collisionNormal gC5.ballPos ⟨0, 0⟩ ⟨4, 0⟩).Mul ((1 + 0.9) *
          ((gC5.ballVel.Sub (wallVelocity gC5.hexAngularSpeed
            (closestPointOnSegment ⟨0, 0⟩ ⟨4, 0⟩ gC5.ballPos))).Dot
              (collisionNormal gC5.ballPos ⟨0, 0⟩ ⟨4, 0⟩))))).Add
        (wallVelocity gC5.hexAngularSpeed
          (closestPointOnSegment ⟨0, 0⟩ ⟨4, 0⟩ gC5.ballPos)) := by
  apply resolveEdge_bounce
  · show ((Vector.mk 2 1).Sub (closestPointOnSegment ⟨0, 0⟩ ⟨4, 0⟩ ⟨2, 1⟩)).Len < 2
    rw [closest_eval, diff_eval, len01_eval]
    norm_num
  · show ((Vector.mk 0 (-1)).Sub (wallVelocity 0
      (closestPointOnSegment ⟨0, 0⟩ ⟨4, 0⟩ ⟨2, 1⟩))).Dot (collisionNormal ⟨2, 1⟩ ⟨0, 0⟩ ⟨4, 0⟩) < 0
    rw [closest_eval, wallVelocity_zero, normal_eval]
    simp only [Vector.Sub, Vector.Dot]
    norm_num

/-- Claim C6: Normalize applied to a vector of length 0 returns (0,0) with the
division guarded away, and on any vector of nonzero length it divides the
components by the length. -/
theorem Normalize_spec :
    (∀ v : Vector, v.Len = 0 → v.Normalize = ⟨0, 0⟩) ∧
    (∀ v : Vector, v.Len ≠ 0 → v.Normalize = ⟨v.X / v.Len, v.Y / v.Len⟩) := by
  constructor
  · intro v h
    simp only [Vector.Normalize, h, if_pos]
  · intro v h
    simp only [Vector.Normalize, h, if_neg, ite_false]

/-- Witness for C6 at the concrete vectors (0,0) and (3,4). -/
theorem Normalize_spec_witness :
    (Vector.mk 0 0).Len = 0 ∧ (Vector.mk 0 0).Normalize = ⟨0, 0⟩ ∧
    (Vector.mk 3 4).Len ≠ 0 ∧
    (Vector.mk 3 4).Normalize = ⟨3 / (Vector.mk 3 4).Len, 4 / (Vector.mk 3 4).Len⟩ := by
  have h0 : (Vector.mk 0 0).Len = 0 := by
    simp [Vector.Len]
  have h34 : (Vector.mk 3 4).Len ≠ 0 := by
    have : (Vector.mk 3 4).Len = 5 := by
      rw [Vector.Len, show ((3 : ℝ) ^ 2 + 4 ^ 2) = 5 ^ 2 by norm_num,
        Real.sqrt_sq (by norm_num)]
    rw [this]; norm_num
  exact ⟨h0, Normalize_spec.1 _ h0, h34, Normalize_spec.2 _ h34⟩

/-- Claim C8: starting from NewGame (rotation 0), after N calls to Update the
hexagon rotation equals N * angularSpeed * dt with angularSpeed = 0.5 and the
fixed dt = 1/60, independently of any ball interaction. -/
theorem rotation_linear (N : ℕ) :
    (Update^[N] NewGame).hexRotation = (N : ℝ) * (0.5 * (1 / 60)) := by
  induction N with
  | zero => simp [NewGame]
  | succ n ih =>
    rw [Function.iterate_succ_apply', Update_hexRotation, ih,
      iterate_Update_hexAngularSpeed]
    push_cast
    ring

/-- Claim C9: determinism.  Two simulations constructed by NewGame and advanced
by the same number of Update calls agree on ball position, ball velocity,
hexagon rotation, and the derived hexagon vertices. -/
theorem determinism (g1 g2 : Game) (h1 : g1 = NewGame) (h2 : g2 = NewGame) (n : ℕ) :
    (Update^[n] g1).ballPos = (Update^[n] g2).ballPos ∧
    (Update^[n] g1).ballVel = (Update^[n] g2).ballVel ∧
    (Update^[n] g1).hexRotation = (Update^[n] g2).hexRotation ∧
    getHexagonVertices (Update^[n] g1) = getHexagonVertices (Update^[n] g2) := by
  subst h1; subst h2
  exact ⟨rfl, rfl, rfl, rfl⟩

/-! ## Trigonometric geometry of the hexagon edges -/

theorem chord_sq (R a b : ℝ) :
    (R * Real.cos b - R * Real.cos a) ^ 2 + (R * Real.sin b - R * Real.sin a) ^ 2 =
      R ^ 2 * (2 - 2 * Real.cos (b - a)) := by
  rw [Real.cos_sub]
  linear_combination (R ^ 2) * Real.sin_sq_add_cos_sq a + (R ^ 2) * Real.sin_sq_add_cos_sq b

theorem dot_self_chord (g : Game) (a b : ℝ) (h : Real.cos (b - a) = 1 / 2) :
    ((vertexAtAngle g b).Sub (vertexAtAngle g a)).Dot
      ((vertexAtAngle g b).Sub (vertexAtAngle g a)) = g.hexRadius ^ 2 := by
  simp only [vertexAtAngle, Vector.Sub, Vector.Dot]
  have hc := chord_sq g.hexRadius a b
  rw [h] at hc
  linear_combination hc

theorem cos_lt_one_of_sin_pos {x : ℝ} (h : 0 < Real.sin x) : Real.cos x < 1 := by
  nlinarith [Real.sin_sq_add_cos_sq x, Real.cos_le_one x, mul_pos h h]

theorem sin_pi_div_three_pos : 0 < Real.sin (Real.pi / 3) := by
  rw [Real.sin_pi_div_three]
  positivity

theorem edge_dot_self (g : Game) (i : ℕ) (hi : i < 6) :
    ((vertexAt g ((i + 1) % 6)).Sub (vertexAt g i)).Dot
      ((vertexAt g ((i + 1) % 6)).Sub (vertexAt g i)) = g.hexRadius ^ 2 := by
  interval_cases i
  · exact dot_self_chord g _ _ (by
      rw [show (g.hexRotation + ((1 : ℕ) : ℝ) * 2 * Real.pi / 6) -
          (g.hexRotation + ((0 : ℕ) : ℝ) * 2 * Real.pi / 6) = Real.pi / 3 by push_cast; ring]
      exact Real.cos_pi_div_three)
  · exact dot_self_chord g _ _ (by
      rw [show (g.hexRotation + ((2 : ℕ) : ℝ) * 2 * Real.pi / 6) -
          (g.hexRotation + ((1 : ℕ) : ℝ) * 2 * Real.pi / 6) = Real.pi / 3 by push_cast; ring]
      exact Real.cos_pi_div_three)
  · exact dot_self_chord g _ _ (by
      rw [show (g.hexRotation + ((3 : ℕ) : ℝ) * 2 * Real.pi / 6) -
          (g.hexRotation + ((2 : ℕ) : ℝ) * 2 * Real.pi / 6) = Real.pi / 3 by push_cast; ring]
      exact Real.cos_pi_div_three)
  · exact dot_self_chord g _ _ (by
      rw [show (g.hexRotation + ((4 : ℕ) : ℝ) * 2 * Real.pi / 6) -
          (g.hexRotation + ((3 : ℕ) : ℝ) * 2 * Real.pi / 6) = Real.pi / 3 by push_cast; ring]
      exact Real.cos_pi_div_three)
  · exact dot_self_chord g _ _ (by
      rw [show (g.hexRotation + ((5 : ℕ) : ℝ) * 2 * Real.pi / 6) -
          (g.hexRotation + ((4 : ℕ) : ℝ) * 2 * Real.pi / 6) = Real.pi / 3 by push_cast; ring]
      exact Real.cos_pi_div_three)
  · show ((vertexAt g 0).Sub (vertexAt g 5)).Dot ((vertexAt g 0).Sub (vertexAt g 5)) =
      g.hexRadius ^ 2
    exact dot_self_chord g _ _ (by
      rw [show (g.hexRotation + ((0 : ℕ) : ℝ) * 2 * Real.pi / 6) -
          (g.hexRotation + ((5 : ℕ) : ℝ) * 2 * Real.pi / 6) = Real.pi / 3 - 2 * Real.pi by
        push_cast; ring]
      rw [Real.cos_sub_two_pi]
      exact Real.cos_pi_div_three)

/-- Witness for C9 at two copies of NewGame and three steps. -/
theorem determinism_witness :
    (Update^[3] NewGame).ballPos = (Update^[3] NewGame).ballPos ∧
    (Update^[3] NewGame).ballVel = (Update^[3] NewGame).ballVel ∧
    (Update^[3] NewGame).hexRotation = (Update^[3] NewGame).hexRotation ∧
    getHexagonVertices (Update^[3] NewGame) = getHexagonVertices (Update^[3] NewGame) :=
  determinism NewGame NewGame rfl rfl 3

/-- Claim C7: every state reachable from NewGame keeps hexagon radius 200, and
for a hexagon of radius 200 the endpoints of each of the six edges are
distinct, so the segment-projection denominator dot(B-A, B-A) in
closestPointOnSegment is nonzero. -/
theorem segment_denominator_nonzero :
    (∀ n : ℕ, (Update^[n] NewGame).hexRadius = 200) ∧
    (∀ g : Game, g.hexRadius = 200 → ∀ i : ℕ, i < 6 →
      vertexAt g i ≠ vertexAt g ((i + 1) % 6) ∧
      ((vertexAt g ((i + 1) % 6)).Sub (vertexAt g i)).Dot
        ((vertexAt g ((i + 1) % 6)).Sub (vertexAt g i)) ≠ 0) := by
  refine ⟨iterate_Update_hexRadius, ?_⟩
  intro g hg i hi
  have hd := edge_dot_self g i hi
  rw [hg] at hd
  have hne : ((vertexAt g ((i + 1) % 6)).Sub (vertexAt g i)).Dot
      ((vertexAt g ((i + 1) % 6)).Sub (vertexAt g i)) ≠ 0 := by
    rw [hd]; norm_num
  refine ⟨?_, hne⟩
  intro hAB
  apply hne
  rw [← hAB]
  simp [Vector.Sub, Vector.Dot]

/-- Witness for C7 at NewGame and edge 0. -/
theorem segment_denominator_nonzero_witness :
    NewGame.hexRadius = 200 ∧
    vertexAt NewGame 0 ≠ vertexAt NewGame 1 ∧
    ((vertexAt NewGame 1).Sub (vertexAt NewGame 0)).Dot
      ((vertexAt NewGame 1).Sub (vertexAt NewGame 0)) ≠ 0 := by
  refine ⟨segment_denominator_nonzero.1 0, ?_⟩
  exact segment_denominator_nonzero.2 NewGame (segment_denominator_nonzero.1 0) 0 (by norm_num)

/-- Core of C10: for any two vertices at angles a and b with sin(b-a) > 0, the
normalized perpendicular of the edge vector has positive dot product with the
vector from any closest point on the segment toward the hexagon center. -/
theorem inward_core (g : Game) (a b : ℝ) (hR : 0 < g.hexRadius)
    (hsin : 0 < Real.sin (b - a)) (P : Vector) :
    0 < ((((vertexAtAngle g b).Sub (vertexAtAngle g a)).Perp).Normalize).Dot
      (hexCenter.Sub (closestPointOnSegment (vertexAtAngle g a) (vertexAtAngle g b) P)) := by
  obtain ⟨t, ht⟩ : ∃ t : ℝ, closestPointOnSegment (vertexAtAngle g a) (vertexAtAngle g b) P =
      (vertexAtAngle g a).Add (((vertexAtAngle g b).Sub (vertexAtAngle g a)).Mul t) :=
    ⟨_, rfl⟩
  rw [ht]
  set e : Vector := (vertexAtAngle g b).Sub (vertexAtAngle g a) with he
  have hlen_sq : e.Perp.X ^ 2 + e.Perp.Y ^ 2 = g.hexRadius ^ 2 * (2 - 2 * Real.cos (b - a)) := by
    have hc := chord_sq g.hexRadius a b
    simp only [he, vertexAtAngle, Vector.Sub, Vector.Perp]
    linear_combination hc
  have hcos : Real.cos (b - a) < 1 := cos_lt_one_of_sin_pos hsin
  have hpos : 0 < e.Perp.X ^ 2 + e.Perp.Y ^ 2 := by
    rw [hlen_sq]
    have h2 : 0 < 2 - 2 * Real.cos (b - a) := by linarith
    positivity
  have hLpos : 0 < e.Perp.Len := by
    rw [Vector.Len]
    exact Real.sqrt_pos.mpr hpos
  have hLne : e.Perp.Len ≠ 0 := ne_of_gt hLpos
  have hdot : (e.Perp.Normalize).Dot
      (hexCenter.Sub ((vertexAtAngle g a).Add (e.Mul t)))
      = (g.hexRadius ^ 2 * Real.sin (b - a)) / e.Perp.Len := by
    rw [Vector.Normalize, if_neg hLne, Real.sin_sub]
    simp only [Vector.Dot, Vector.Perp, Vector.Sub, Vector.Add, Vector.Mul, he,
      vertexAtAngle]
    field_simp
    ring
  rw [hdot]
  exact div_pos (mul_pos (pow_pos hR 2) hsin) hLpos

/-- Claim C10: with the code's vertex ordering (vertex i at angle
rotation + i*2*pi/6) and positive hexagon radius, the fallback normal
normalize(perp(B-A)) of each edge has positive dot product with the vector
from the closest point on that edge toward the hexagon center, so the
degenerate-case positional correction pushes the ball toward the interior. -/
theorem fallback_normal_inward (g : Game) (hR : 0 < g.hexRadius) (i : ℕ) (hi : i < 6)
    (P : Vector) :
    0 < ((((vertexAt g ((i + 1) % 6)).Sub (vertexAt g i)).Perp).Normalize).Dot
      (hexCenter.Sub (closestPointOnSegment (vertexAt g i) (vertexAt g ((i + 1) % 6)) P)) := by
  interval_cases i
  · exact inward_core g _ _ hR (by
      rw [show (g.hexRotation + ((1 : ℕ) : ℝ) * 2 * Real.pi / 6) -
          (g.hexRotation + ((0 : ℕ) : ℝ) * 2 * Real.pi / 6) = Real.pi / 3 by push_cast; ring]
      exact sin_pi_div_three_pos) P
  · exact inward_core g _ _ hR (by
      rw [show (g.hexRotation + ((2 : ℕ) : ℝ) * 2 * Real.pi / 6) -
          (g.hexRotation + ((1 : ℕ) : ℝ) * 2 * Real.pi / 6) = Real.pi / 3 by push_cast; ring]
      exact sin_pi_div_three_pos) P
  · exact inward_core g _ _ hR (by
      rw [show (g.hexRotation + ((3 : ℕ) : ℝ) * 2 * Real.pi / 6) -
          (g.hexRotation + ((2 : ℕ) : ℝ) * 2 * Real.pi / 6) = Real.pi / 3 by push_cast; ring]
      exact sin_pi_div_three_pos) P
  · exact inward_core g _ _ hR (by
      rw [show (g.hexRotation + ((4 : ℕ) : ℝ) * 2 * Real.pi / 6) -
          (g.hexRotation + ((3 : ℕ) : ℝ) * 2 * Real.pi / 6) = Real.pi / 3 by push_cast; ring]
      exact sin_pi_div_three_pos) P
  · exact inward_core g _ _ hR (by
      rw [show (g.hexRotation + ((5 : ℕ) : ℝ) * 2 * Real.pi / 6) -
          (g.hexRotation + ((4 : ℕ) : ℝ) * 2 * Real.pi / 6) = Real.pi / 3 by push_cast; ring]
      exact sin_pi_div_three_pos) P
  · show 0 < ((((vertexAt g 0).Sub (vertexAt g 5)).Perp).Normalize).Dot
      (hexCenter.Sub (closestPointOnSegment (vertexAt g 5) (vertexAt g 0) P))
    exact inward_core g _ _ hR (by
      rw [show (g.hexRotation + ((0 : ℕ) : ℝ) * 2 * Real.pi / 6) -
          (g.hexRotation + ((5 : ℕ) : ℝ) * 2 * Real.pi / 6) = Real.pi / 3 - 2 * Real.pi by
        push_cast; ring]
      rw [Real.sin_sub_two_pi]
      exact sin_pi_div_three_pos) P

/-- Witness for C10 at NewGame, edge 0, probe point at the hexagon center. -/
theorem fallback_normal_inward_witness :
    0 < ((((vertexAt NewGame 1).Sub (vertexAt NewGame 0)).Perp).Normalize).Dot
      (hexCenter.Sub (closestPointOnSegment (vertexAt NewGame 0) (vertexAt NewGame 1)
        hexCenter)) :=
  fallback_normal_inward NewGame (by norm_num [NewGame]) 0 (by norm_num) hexCenter

end

end HexBall
